import Mathlib

/-!
# consul-esm entry point: `main` and `handleSignals`

A shallow embedding of `src/main.go`.

* `handleSignals` (lines 87-99) is a loop over the signals received from
  `signalCh`.  It is embedded as a fold of `handleSignal` (one loop iteration)
  over the finite sequence of signals read from the channel.  The state carries
  the local variable `shutdown`, the state of `shutdownCh` (open or closed) and
  the trace of effects performed so far.  Closing a closed channel is a run-time
  panic in Go, so an iteration can fail.
* `main` (lines 15-85) is embedded as a function from the command line and the
  behaviour of its collaborators to the trace of events it performs and the way
  it terminates.
-/

namespace ConsulESM

/-! ## `handleSignals` -/

/-- An `os.Signal`, identified by its signal number (`syscall.Signal`). -/
abbrev Signal := Nat

/-- The value `os.Interrupt` (`syscall.SIGINT`). -/
def osInterrupt : Signal := 2

/-- The effects `handleSignals` can perform on the outside world. -/
inductive Effect where
  /-- A call `logger.Printf(line)`. -/
  | log (line : String)
  /-- A call `close(shutdownCh)`. -/
  | close
  deriving DecidableEq, Repr

/-- The format string given to `logger.Printf` on line 92 (it has no verbs). -/
def gotSignalMsg : String := "[INFO] got signal, shutting down..."

/-- State of the goroutine running `handleSignals`. -/
structure SigState where
  /-- The local variable `shutdown`. -/
  shutdown : Bool
  /-- Whether `shutdownCh` has been closed. -/
  chClosed : Bool
  /-- The effects performed so far, oldest first. -/
  trace : List Effect
  deriving DecidableEq, Repr

deriving instance DecidableEq for Except

/-- The state on entry to `handleSignals`: `shutdown := false` (line 88), the
channel freshly made by `make(chan struct{})` and nothing done yet. -/
def SigState.init : SigState := { shutdown := false, chClosed := false, trace := [] }

/-- The builtin `close(shutdownCh)`: panics when the channel is already closed. -/
def closeChan (s : SigState) : Except String SigState :=
  if s.chClosed then .error "close of closed channel"
  else .ok { s with chClosed := true, trace := s.trace ++ [Effect.close] }

/-- One iteration of the loop `for sig := range signalCh` (lines 90-97). -/
def handleSignal (s : SigState) (sig : Signal) : Except String SigState :=
  if sig = osInterrupt then
    let s1 := { s with trace := s.trace ++ [Effect.log gotSignalMsg] }
    if !s1.shutdown then
      match closeChan s1 with
      | .error e => .error e
      | .ok s2 => .ok { s2 with shutdown := true }
    else .ok s1
  else .ok s

/-- The loop of `handleSignals` run from state `s` over the signals `sigs`
received from `signalCh`, in order. -/
def handleSignalsFrom : SigState → List Signal → Except String SigState
  | s, [] => .ok s
  | s, sig :: rest =>
    match handleSignal s sig with
    | .error e => .error e
    | .ok s1 => handleSignalsFrom s1 rest

/-- The function `handleSignals` on the sequence `sigs` of signals read from
`signalCh` before it is closed. -/
def handleSignals (sigs : List Signal) : Except String SigState :=
  handleSignalsFrom SigState.init sigs

/-- Number of `close(shutdownCh)` calls in a trace. -/
def closeCount (t : List Effect) : Nat := t.count Effect.close

/-- Number of `"[INFO] got signal, shutting down..."` log calls in a trace. -/
def logCount (t : List Effect) : Nat := t.count (Effect.log gotSignalMsg)

/-- The value of the flag `shutdown` after the signals `sigs` were processed
(`false` if the goroutine panicked). -/
def shutdownAfter (sigs : List Signal) : Bool :=
  match handleSignals sigs with
  | .ok s => s.shutdown
  | .error _ => false

/-! ## The command line: package `flag` as `main` uses it -/

/-- The names registered on the flag set `f` (lines 20-23), in registration
order.  Both are registered with the same value `&configFiles`, an
`AppendSliceValue`, whose `Set` appends its argument to the slice. -/
def formalFlags : List String := ["config-file", "config-dir"]

/-- The method `AppendSliceValue.Set`: append the value to `configFiles`. -/
def appendSliceSet (configFiles : List String) (value : String) : List String :=
  configFiles ++ [value]

/-- The first `=` of `cs`: what stands before it and what stands after it. -/
def findEq : List Char → Option (List Char × List Char)
  | [] => none
  | c :: cs =>
    if c = '=' then some ([], cs)
    else match findEq cs with
      | none => none
      | some (before, after) => some (c :: before, after)

/-- The loop of `parseOne` that splits `name=value`; the search starts at index
1 (an equals sign cannot be first).  Gives the name and the value, if any. -/
def splitNameValue : List Char → List Char × Option (List Char)
  | [] => ([], none)
  | c :: cs =>
    match findEq cs with
    | none => (c :: cs, none)
    | some (before, after) => (c :: before, some after)

/-- What one call of `FlagSet.parseOne` returns. -/
inductive ParseOne where
  /-- Returned `(true, nil)`: a flag was seen; the new `configFiles` and `f.args`. -/
  | seen (configFiles : List String) (args : List String)
  /-- Returned `(false, nil)`: the flags are over. -/
  | done
  /-- Returned `(false, ErrHelp)` after calling `f.usage()`. -/
  | help
  /-- Returned `(false, f.failf(...))`; `failf` printed the message and the usage. -/
  | failed (msg : String)
  deriving DecidableEq, Repr

/-- The method `FlagSet.parseOne` for the flag set built by `main`: none of its
flags is a boolean flag and `Set` never fails. -/
def parseOne (configFiles : List String) (args : List String) : ParseOne :=
  match args with
  | [] => .done
  | s :: rest =>
    match s.data with
    | '-' :: c :: cs =>
      if c = '-' ∧ cs = [] then .done
      else
        let name := if c = '-' then cs else c :: cs
        match name with
        | [] => .failed ("bad flag syntax: " ++ s)
        | n0 :: _ =>
          if n0 = '-' ∨ n0 = '=' then .failed ("bad flag syntax: " ++ s)
          else
            let (nm, value) := splitNameValue name
            if String.mk nm ∈ formalFlags then
              match value, rest with
              | some v, _ => .seen (appendSliceSet configFiles (String.mk v)) rest
              | none, v :: rest1 => .seen (appendSliceSet configFiles v) rest1
              | none, [] => .failed ("flag needs an argument: -" ++ String.mk nm)
            else if String.mk nm = "help" ∨ String.mk nm = "h" then .help
            else .failed ("flag provided but not defined: -" ++ String.mk nm)
    | _ => .done

/-- The error of `FlagSet.Parse`. -/
inductive FlagError where
  /-- The error `flag.ErrHelp`. -/
  | help
  /-- An error made by `failf`. -/
  | failed (msg : String)
  deriving DecidableEq, Repr

/-- The method `Error()` of a flag error. -/
def FlagError.text : FlagError → String
  | .help => "flag: help requested"
  | .failed msg => msg

/-- The loop of `FlagSet.Parse` with error handling `ContinueOnError`: call
`parseOne` until it sees no flag.  Every iteration that goes on consumes an
argument, so `fuel` above the number of arguments is never used up. -/
def parseLoop : Nat → List String → List String → Except FlagError (List String)
  | 0, configFiles, _ => .ok configFiles
  | fuel + 1, configFiles, args =>
    match parseOne configFiles args with
    | .seen configFiles1 args1 => parseLoop fuel configFiles1 args1
    | .done => .ok configFiles
    | .help => .error .help
    | .failed msg => .error (.failed msg)

/-- The call `f.Parse(os.Args[1:])` of line 29, with `configFiles` initially
empty: the final `configFiles`, or the error. -/
def flagParse (args : List String) : Except FlagError (List String) :=
  parseLoop (args.length + 1) [] args

/-! ## `fmt.Sprintf` with the verb `%q` -/

/-- The table `lowerhex` of package `strconv`. -/
def lowerhex (n : Nat) : Char := "0123456789abcdef".data.getD n '0'

/-- The digits `lowerhex[r>>s&0xF]` for `s` in `shifts`. -/
def hexDigits (r : Nat) (shifts : List Nat) : List Char :=
  shifts.map fun s => lowerhex ((r >>> s) % 16)

/-- The function `strconv.appendEscapedRune` with quote `"`, `ASCIIonly` and
`graphicOnly` false.  `isPrint` is `strconv.IsPrint`, whose Unicode tables are
not part of this repository.  A `Char` is a valid rune. -/
def appendEscapedRune (isPrint : Char → Bool) (buf : List Char) (r : Char) : List Char :=
  if r = '"' ∨ r = '\\' then buf ++ ['\\', r]
  else if isPrint r then buf ++ [r]
  else if r = '\x07' then buf ++ ['\\', 'a']
  else if r = '\x08' then buf ++ ['\\', 'b']
  else if r = '\x0c' then buf ++ ['\\', 'f']
  else if r = '\n' then buf ++ ['\\', 'n']
  else if r = '\r' then buf ++ ['\\', 'r']
  else if r = '\t' then buf ++ ['\\', 't']
  else if r = '\x0b' then buf ++ ['\\', 'v']
  else if r.toNat < 32 ∨ r.toNat = 127 then
    buf ++ ['\\', 'x', lowerhex (r.toNat % 256 / 16), lowerhex (r.toNat % 256 % 16)]
  else if r.toNat < 65536 then buf ++ '\\' :: 'u' :: hexDigits r.toNat [12, 8, 4, 0]
  else buf ++ '\\' :: 'U' :: hexDigits r.toNat [28, 24, 20, 16, 12, 8, 4, 0]

/-- The function `strconv.Quote`, which formats a string under `%q`: an opening
quote, every rune escaped, a closing quote.  The argument is a `String`, that is
valid UTF-8, so the branch for an invalid byte is not taken. -/
def goQuote (isPrint : Char → Bool) (s : String) : String :=
  String.mk (s.data.foldl (appendEscapedRune isPrint) ['"'] ++ ['"'])

/-! ## `main` -/

/-- The fields of `Config` that `main` reads. -/
structure Config where
  LogLevel : String
  EnableSyslog : Bool
  SyslogFacility : String
  Datacenter : String
  Service : String
  LeaderKey : String
  /-- A `time.Duration`, in nanoseconds. -/
  NodeReconnectTimeout : Int
  deriving DecidableEq, Repr

/-- The struct `logger.Config` as built on lines 44-48. -/
structure LogConfig where
  LogLevel : String
  EnableSyslog : Bool
  SyslogFacility : String
  deriving DecidableEq, Repr

/-- What `main` calls and does not define: functions of this repository that
are outside `src/main.go`, and library functions. -/
structure Env (Agent : Type) where
  /-- The result of `DefaultConfig()`. -/
  DefaultConfig : Config
  /-- The function `MergeConfigPaths(config, paths)`: the error, or the
  configuration that `config` points to afterwards. -/
  MergeConfigPaths : Config → List String → Except String Config
  /-- The result `ok` of `logger.Setup(logConfig, ui)`. -/
  loggerSetup : LogConfig → Bool
  /-- The function `NewAgent(config, logger)`. -/
  NewAgent : Config → Except String Agent
  /-- The error returned by `a.Run(shutdownCh)`, `none` for `nil`. -/
  Run : Agent → Option String
  /-- The text `flags.Usage(usage, f)`. -/
  usageText : String
  /-- The function `strconv.IsPrint`. -/
  isPrint : Char → Bool
  /-- The method `time.Duration.String`. -/
  durationString : Int → String

/-- The events of a run of `main`, as seen from outside. -/
inductive Event where
  /-- Bytes written to `os.Stdout`. -/
  | stdout (text : String)
  /-- Bytes written to `os.Stderr`. -/
  | stderr (text : String)
  /-- A call `MergeConfigPaths(config, paths)`. -/
  | mergeConfigPaths (paths : List String)
  /-- A call `logger.Setup(logConfig, ui)`. -/
  | loggerSetup (logConfig : LogConfig)
  /-- A call `NewAgent(config, logger)`. -/
  | newAgent (config : Config)
  /-- The call `signal.Notify(signalCh)`. -/
  | signalNotify
  /-- The statement `go handleSignals(a.logger, signalCh, shutdownCh)`. -/
  | goHandleSignals
  /-- The call `gatedWriter.Flush()`. -/
  | flush
  /-- The call `a.Run(shutdownCh)`. -/
  | agentRun
  /-- A write of a line to `logOutput`, which goes through the gated writer.
  `main` itself writes none; the agent and `handleSignals` do. -/
  | logWrite (line : String)
  deriving DecidableEq, Repr

/-- How `main` ends. -/
inductive Termination where
  /-- The function `main` returns: exit status 0. -/
  | returned
  /-- A call `os.Exit(code)`. -/
  | exit (code : Nat)
  /-- A call `panic(err)`. -/
  | panic (err : String)
  deriving DecidableEq, Repr

/-- The function `fmt.Println(err)`: the text and a newline on standard output. -/
def fmtPrintln (text : String) : Event := .stdout (text ++ "\n")

/-- The methods `ui.Output` and `ui.Info` of `cli.BasicUi` with `Writer:
os.Stdout`: the message and a newline on standard output. -/
def uiOutput (message : String) : Event := .stdout (message ++ "\n")

/-- The text of the Datacenter line (lines 68-72). -/
def datacenterLine (isPrint : Char → Bool) (config : Config) : String :=
  if config.Datacenter = "" then "            Datacenter: (default)"
  else "            Datacenter: " ++ goQuote isPrint config.Datacenter

/-- Lines 67-78: the banner. -/
def banner {Agent : Type} (env : Env Agent) (config : Config) : List Event :=
  [ uiOutput "Consul ESM running!",
    uiOutput (datacenterLine env.isPrint config),
    uiOutput ("               Service: " ++ goQuote env.isPrint config.Service),
    uiOutput ("            Leader Key: " ++ goQuote env.isPrint config.LeaderKey),
    uiOutput ("Node Reconnect Timeout: " ++
      goQuote env.isPrint (env.durationString config.NodeReconnectTimeout)),
    uiOutput "",
    uiOutput "Log data will now stream in as it occurs:\n" ]

/-- What `FlagSet.Parse` prints before it returns an error: `failf` writes the
message to the flag set's output (standard error) and calls `f.Usage`, which
prints the usage text on standard output (line 26); `-h` only calls `f.Usage`. -/
def flagErrorEvents (usageText : String) : FlagError → List Event
  | .help => [.stdout usageText]
  | .failed msg => [.stderr (msg ++ "\n"), .stdout usageText]

/-- The function `main` on the arguments `os.Args[1:]`: the events of the main
goroutine, in order, and how it ends. -/
def main {Agent : Type} (env : Env Agent) (args : List String) : List Event × Termination :=
  match flagParse args with
  | .error err => (flagErrorEvents env.usageText err ++ [fmtPrintln err.text], .exit 1)
  | .ok configFiles =>
    let ev1 := [Event.mergeConfigPaths configFiles]
    match env.MergeConfigPaths env.DefaultConfig configFiles with
    | .error err => (ev1 ++ [fmtPrintln err], .exit 1)
    | .ok config =>
      let logConfig : LogConfig :=
        { LogLevel := config.LogLevel,
          EnableSyslog := config.EnableSyslog,
          SyslogFacility := config.SyslogFacility }
      let ev2 := ev1 ++ [Event.loggerSetup logConfig]
      if !env.loggerSetup logConfig then (ev2, .exit 1)
      else
        let ev3 := ev2 ++ [Event.newAgent config]
        match env.NewAgent config with
        | .error err => (ev3, .panic err)
        | .ok a =>
          let ev4 := ev3 ++ [Event.signalNotify, Event.goHandleSignals] ++ banner env config
            ++ [Event.flush, Event.agentRun]
          match env.Run a with
          | some err => (ev4, .panic err)
          | none => (ev4, .returned)

/-- Modelled from the spec: the gated writer of `logger.Setup` (package
`github.com/hashicorp/consul/logger`, not in this repository), section 4.2: it
buffers all writes until the flush, then emits the buffered history in the
original order once, and afterwards passes writes through immediately.  The
function gives what reaches the terminal for a sequence of events: text written
to standard output directly, and log lines through the gate, whose state is
`flushed` and `buf`. -/
def terminalFrom (flushed : Bool) (buf : List String) : List Event → List String
  | [] => []
  | .stdout text :: rest => text :: terminalFrom flushed buf rest
  | .logWrite line :: rest =>
    if flushed then line :: terminalFrom flushed buf rest
    else terminalFrom flushed (buf ++ [line]) rest
  | .flush :: rest => buf ++ terminalFrom true [] rest
  | _ :: rest => terminalFrom flushed buf rest

/-- What reaches the terminal's standard output over a sequence of events,
starting from a fresh gated writer. -/
def terminal (events : List Event) : List String := terminalFrom false [] events

/-- Whether an event is a write to the log output. -/
def Event.isLogWrite : Event → Bool
  | .logWrite _ => true
  | _ => false

/-- The lines written to the log output in a sequence of events, in order. -/
def logLines : List Event → List String
  | [] => []
  | .logWrite line :: rest => line :: logLines rest
  | _ :: rest => logLines rest

/-- The texts written to standard output directly in a sequence of events. -/
def stdoutTexts : List Event → List String
  | [] => []
  | .stdout text :: rest => text :: stdoutTexts rest
  | _ :: rest => stdoutTexts rest

/-- The texts written to standard error in a sequence of events. -/
def stderrTexts : List Event → List String
  | [] => []
  | .stderr text :: rest => text :: stderrTexts rest
  | _ :: rest => stderrTexts rest

/-! ## Well-formed command lines -/

/-- One use of a flag on the command line. -/
structure FlagUse where
  /-- The flag is `config-dir` rather than `config-file`. -/
  dir : Bool
  /-- Written with two dashes rather than one. -/
  twoDashes : Bool
  /-- Written `-name=value` rather than `-name value`. -/
  inline : Bool
  /-- The value given to the flag. -/
  value : String
  deriving DecidableEq, Repr

/-- The name of the flag used. -/
def FlagUse.flagName (u : FlagUse) : String :=
  if u.dir then "config-dir" else "config-file"

/-- The arguments that a flag use is written as. -/
def FlagUse.render (u : FlagUse) : List String :=
  let dashes := if u.twoDashes then "--" else "-"
  if u.inline then [dashes ++ u.flagName ++ "=" ++ u.value]
  else [dashes ++ u.flagName, u.value]

/-- The command line made of the flag uses `us`, in order. -/
def renderArgs : List FlagUse → List String
  | [] => []
  | u :: us => u.render ++ renderArgs us

/-! ## Auxiliary definitions for the statements -/

/-- The log effect of line 92. -/
def gotSignalLog : Effect := Effect.log gotSignalMsg

/-- The state `handleSignals` ends in, as a function of the number `k` of
interrupts received. -/
def finalState (k : Nat) : SigState :=
  match k with
  | 0 => SigState.init
  | n + 1 =>
    { shutdown := true, chClosed := true,
      trace := gotSignalLog :: Effect.close :: List.replicate n gotSignalLog }

/-- The struct `logger.Config` that `main` builds from the configuration. -/
def logConfigOf (config : Config) : LogConfig :=
  { LogLevel := config.LogLevel,
    EnableSyslog := config.EnableSyslog,
    SyslogFacility := config.SyslogFacility }

/-- The events of `main` up to the start of the signal handler, on a start-up
where everything succeeds. -/
def setupEvents (files : List String) (config : Config) : List Event :=
  [Event.mergeConfigPaths files, Event.loggerSetup (logConfigOf config),
   Event.newAgent config, Event.signalNotify, Event.goHandleSignals]

/-- An environment in which every collaborator succeeds, for the examples. -/
def okEnv : Env Unit :=
  { DefaultConfig :=
      { LogLevel := "INFO", EnableSyslog := false, SyslogFacility := "LOCAL0",
        Datacenter := "", Service := "consul-esm", LeaderKey := "consul-esm/leader",
        NodeReconnectTimeout := 259200000000000 },
    MergeConfigPaths := fun config _ => .ok config,
    loggerSetup := fun _ => true,
    NewAgent := fun _ => .ok (),
    Run := fun _ => none,
    usageText := "Usage: consul-esm [options]\n",
    isPrint := fun c => decide (32 ≤ c.toNat ∧ c.toNat < 127),
    durationString := fun _ => "72h0m0s" }

/-- An environment in which `MergeConfigPaths` fails, for the examples. -/
def badMergeEnv : Env Unit :=
  { okEnv with MergeConfigPaths := fun _ _ => .error "open /nonexistent: no such file" }

/-! ## Lemmas on `handleSignals` -/

theorem handleSignal_other (s : SigState) (sig : Signal) (h : sig ≠ osInterrupt) :
    handleSignal s sig = .ok s := by
  simp [handleSignal, h]

theorem handleSignal_interrupt_shutdown (s : SigState) (h : s.shutdown = true) :
    handleSignal s osInterrupt = .ok { s with trace := s.trace ++ [gotSignalLog] } := by
  simp [handleSignal, h, gotSignalLog]

theorem handleSignal_interrupt_armed (s : SigState) (h : s.shutdown = false)
    (hc : s.chClosed = false) :
    handleSignal s osInterrupt =
      .ok { shutdown := true, chClosed := true,
            trace := s.trace ++ [gotSignalLog, Effect.close] } := by
  simp [handleSignal, closeChan, h, hc, gotSignalLog]

/-- From the shutting-down state the loop only appends one log line per interrupt. -/
theorem handleSignalsFrom_shutdown (sigs : List Signal) :
    ∀ s : SigState, s.shutdown = true →
      handleSignalsFrom s sigs =
        .ok { s with trace := s.trace ++ List.replicate (sigs.count osInterrupt) gotSignalLog } := by
  induction sigs with
  | nil => intro s _; simp [handleSignalsFrom]
  | cons sig rest ih =>
    intro s h
    by_cases hs : sig = osInterrupt
    · subst hs
      rw [handleSignalsFrom, handleSignal_interrupt_shutdown s h]
      simp only []
      rw [ih { s with trace := s.trace ++ [gotSignalLog] } h]
      simp [List.replicate_succ]
    · rw [handleSignalsFrom, handleSignal_other s sig hs]
      simp only []
      rw [ih s h]
      have : (sig == osInterrupt) = false := by simpa using hs
      simp [List.count_cons, this]

theorem handleSignalsFrom_init (sigs : List Signal) :
    handleSignalsFrom SigState.init sigs = .ok (finalState (sigs.count osInterrupt)) := by
  induction sigs with
  | nil => simp [handleSignalsFrom, finalState]
  | cons sig rest ih =>
    by_cases hs : sig = osInterrupt
    · subst hs
      rw [handleSignalsFrom, handleSignal_interrupt_armed _ rfl rfl]
      simp only []
      rw [handleSignalsFrom_shutdown rest _ rfl]
      simp [List.count_cons, finalState, SigState.init]
    · rw [handleSignalsFrom, handleSignal_other _ sig hs]
      simp only []
      rw [ih]
      have : (sig == osInterrupt) = false := by simpa using hs
      simp [List.count_cons, this]

theorem handleSignals_eq (sigs : List Signal) :
    handleSignals sigs = .ok (finalState (sigs.count osInterrupt)) :=
  handleSignalsFrom_init sigs

theorem closeCount_replicate_log (n : Nat) :
    closeCount (List.replicate n gotSignalLog) = 0 := by
  simp [closeCount, List.count_eq_zero, gotSignalLog]

theorem logCount_replicate_log (n : Nat) :
    logCount (List.replicate n gotSignalLog) = n := by
  simp [logCount, gotSignalLog, List.count_replicate]

theorem closeCount_finalState (k : Nat) :
    closeCount (finalState k).trace = if k = 0 then 0 else 1 := by
  cases k with
  | zero => simp [finalState, SigState.init, closeCount]
  | succ n =>
    have h := closeCount_replicate_log n
    simp only [closeCount, gotSignalLog] at h
    simp [finalState, closeCount, List.count_cons, gotSignalLog, h]

theorem logCount_finalState (k : Nat) : logCount (finalState k).trace = k := by
  cases k with
  | zero => simp [finalState, SigState.init, logCount]
  | succ n =>
    have h := logCount_replicate_log n
    simp only [logCount, gotSignalLog] at h
    simp [finalState, logCount, List.count_cons, gotSignalLog, h]

theorem shutdown_finalState (k : Nat) : (finalState k).shutdown = decide (0 < k) := by
  cases k <;> simp [finalState, SigState.init]

theorem shutdownAfter_eq (sigs : List Signal) :
    shutdownAfter sigs = decide (0 < sigs.count osInterrupt) := by
  simp only [shutdownAfter, handleSignals_eq, shutdown_finalState]

/-- In a trace `log, close, log, ..., log` the only `close` comes right after
the first `log`. -/
theorem close_after_first_log (n : Nat) (pre post : List Effect)
    (h : gotSignalLog :: Effect.close :: List.replicate n gotSignalLog
      = pre ++ Effect.close :: post) :
    pre = [gotSignalLog] := by
  match pre, h with
  | [], h => simp [gotSignalLog] at h
  | [x], h =>
    simp only [List.cons_append, List.nil_append, List.cons.injEq] at h
    rw [h.1]
  | x :: y :: pre2, h =>
    simp only [List.cons_append, List.cons.injEq] at h
    have hmem : Effect.close ∈ List.replicate n gotSignalLog := by
      rw [h.2.2]; simp
    have := List.eq_of_mem_replicate hmem
    simp [gotSignalLog] at this

/-! ## The claims on `handleSignals` -/

/-- C1: for every finite sequence of signals read from `signalCh`, starting with
`shutdownCh` open, `handleSignals` runs without the panic of closing a closed
channel, and `shutdownCh` is closed exactly once if the sequence contains an
`os.Interrupt` and zero times otherwise, hence at most once. -/
theorem handleSignals_closes_at_most_once (sigs : List Signal) :
    ∃ s, handleSignals sigs = .ok s ∧
      closeCount s.trace = (if osInterrupt ∈ sigs then 1 else 0) ∧
      closeCount s.trace ≤ 1 ∧
      s.chClosed = decide (osInterrupt ∈ sigs) := by
  refine ⟨finalState (sigs.count osInterrupt), handleSignals_eq sigs, ?_, ?_, ?_⟩
  · rw [closeCount_finalState]
    by_cases h : osInterrupt ∈ sigs
    · have : sigs.count osInterrupt ≠ 0 := by
        simpa [List.count_eq_zero] using h
      simp [h, this]
    · have : sigs.count osInterrupt = 0 := List.count_eq_zero.mpr h
      simp [h, this]
  · rw [closeCount_finalState]
    split <;> omega
  · by_cases h : osInterrupt ∈ sigs
    · obtain ⟨n, hn⟩ : ∃ n, sigs.count osInterrupt = n + 1 :=
        Nat.exists_eq_succ_of_ne_zero (by simpa [List.count_eq_zero] using h)
      simp [hn, finalState, h]
    · have : sigs.count osInterrupt = 0 := List.count_eq_zero.mpr h
      simp [this, finalState, SigState.init, h]

/-- C2: on a sequence of signals with no `os.Interrupt`, `handleSignals` ends in
its initial state: the flag `shutdown` is false, `shutdownCh` is open, and no
effect was performed (nothing logged, nothing closed). -/
theorem handleSignals_no_interrupt (sigs : List Signal) (h : osInterrupt ∉ sigs) :
    handleSignals sigs = .ok { shutdown := false, chClosed := false, trace := [] } := by
  rw [handleSignals_eq, List.count_eq_zero.mpr h]
  rfl

/-- Witness of C2 on the signals SIGHUP, SIGTERM, SIGQUIT. -/
theorem handleSignals_no_interrupt_witness :
    osInterrupt ∉ [1, 15, 3] ∧
      handleSignals [1, 15, 3] = .ok { shutdown := false, chClosed := false, trace := [] } :=
  ⟨by decide, handleSignals_no_interrupt [1, 15, 3] (by decide)⟩

/-- C3, counterexample: in the shutting-down state a further `os.Interrupt` is
not a no-op, it logs the message again; over two interrupts the message is
logged twice, not once. -/
theorem shutdown_interrupt_logs_again :
    handleSignal { shutdown := true, chClosed := true, trace := [] } osInterrupt
        = .ok { shutdown := true, chClosed := true, trace := [Effect.log gotSignalMsg] } ∧
      handleSignal { shutdown := true, chClosed := true, trace := [] } osInterrupt
        ≠ .ok { shutdown := true, chClosed := true, trace := [] } ∧
      handleSignals [osInterrupt, osInterrupt]
        = .ok { shutdown := true, chClosed := true,
                trace := [Effect.log gotSignalMsg, Effect.close, Effect.log gotSignalMsg] } ∧
      logCount [Effect.log gotSignalMsg, Effect.close, Effect.log gotSignalMsg] = 2 := by
  refine ⟨by decide, by decide, by decide, by decide⟩

/-- C3, amended: in the shutting-down state (`shutdown == true`) every further
signal leaves the flag and the channel as they are and closes nothing: a signal
other than `os.Interrupt` has no effect at all, an `os.Interrupt` only logs the
message once more.  Hence over any signal sequence the message is logged once
for every interrupt delivered. -/
theorem shutdown_state_signals (s : SigState) (sigs : List Signal)
    (h : s.shutdown = true) :
    (∀ sig, sig ≠ osInterrupt → handleSignal s sig = .ok s) ∧
      handleSignal s osInterrupt
        = .ok { s with trace := s.trace ++ [Effect.log gotSignalMsg] } ∧
      handleSignalsFrom s sigs
        = .ok { s with trace := s.trace ++
            List.replicate (sigs.count osInterrupt) (Effect.log gotSignalMsg) } ∧
      ∃ s1, handleSignals sigs = .ok s1 ∧ logCount s1.trace = sigs.count osInterrupt :=
  ⟨fun sig hs => handleSignal_other s sig hs,
   handleSignal_interrupt_shutdown s h,
   handleSignalsFrom_shutdown sigs s h,
   finalState (sigs.count osInterrupt), handleSignals_eq sigs, logCount_finalState _⟩

/-- Witness of C3 (amended): the state after a first interrupt, then the signals
interrupt, SIGQUIT, interrupt. -/
theorem shutdown_state_signals_witness :
    (∀ sig, sig ≠ osInterrupt →
        handleSignal { shutdown := true, chClosed := true,
                       trace := [Effect.log gotSignalMsg, Effect.close] } sig
          = .ok { shutdown := true, chClosed := true,
                  trace := [Effect.log gotSignalMsg, Effect.close] }) ∧
      handleSignal { shutdown := true, chClosed := true,
                     trace := [Effect.log gotSignalMsg, Effect.close] } osInterrupt
        = .ok { shutdown := true, chClosed := true,
                trace := [Effect.log gotSignalMsg, Effect.close] ++ [Effect.log gotSignalMsg] } ∧
      handleSignalsFrom { shutdown := true, chClosed := true,
                          trace := [Effect.log gotSignalMsg, Effect.close] } [2, 3, 2]
        = .ok { shutdown := true, chClosed := true,
                trace := [Effect.log gotSignalMsg, Effect.close] ++
                  List.replicate (List.count osInterrupt [2, 3, 2]) (Effect.log gotSignalMsg) } ∧
      ∃ s1, handleSignals [2, 3, 2] = .ok s1 ∧
        logCount s1.trace = List.count osInterrupt [2, 3, 2] :=
  shutdown_state_signals
    { shutdown := true, chClosed := true, trace := [Effect.log gotSignalMsg, Effect.close] }
    [2, 3, 2] rfl

/-- C4: in the effect trace of `handleSignals` on any signal sequence, every
close of `shutdownCh` comes right after a `"[INFO] got signal, shutting
down..."` log event, and both are made in the same loop iteration, that is for
the same signal: an iteration performs nothing, the log alone, or the log and
then the close. -/
theorem close_preceded_by_log (sigs : List Signal) :
    (∃ s, handleSignals sigs = .ok s ∧
      ∀ pre post, s.trace = pre ++ Effect.close :: post →
        ∃ pre1, pre = pre1 ++ [Effect.log gotSignalMsg]) ∧
    (∀ s sig s1, handleSignal s sig = .ok s1 →
      s1.trace = s.trace ∨ s1.trace = s.trace ++ [Effect.log gotSignalMsg] ∨
      s1.trace = s.trace ++ [Effect.log gotSignalMsg, Effect.close]) := by
  constructor
  · refine ⟨finalState (sigs.count osInterrupt), handleSignals_eq sigs, ?_⟩
    intro pre post h
    cases hk : sigs.count osInterrupt with
    | zero =>
      rw [hk] at h
      simp only [finalState, SigState.init] at h
      have : Effect.close ∈ ([] : List Effect) := by rw [h]; simp
      simp at this
    | succ n =>
      rw [hk] at h
      exact ⟨[], by simpa [gotSignalLog] using close_after_first_log n pre post h⟩
  · intro s sig s1 h
    by_cases hs : sig = osInterrupt
    · subst hs
      by_cases hsh : s.shutdown = true
      · rw [handleSignal_interrupt_shutdown s hsh] at h
        injection h with h
        right; left
        rw [← h]; rfl
      · have hsh2 : s.shutdown = false := by simpa using hsh
        by_cases hc : s.chClosed = true
        · simp [handleSignal, closeChan, hsh2, hc] at h
        · have hc2 : s.chClosed = false := by simpa using hc
          rw [handleSignal_interrupt_armed s hsh2 hc2] at h
          injection h with h
          right; right
          rw [← h]; rfl
    · rw [handleSignal_other s sig hs] at h
      injection h with h
      left; rw [h]

/-- Witness of C4 on the signals SIGHUP, interrupt, interrupt: the trace is
log, close, log. -/
theorem close_preceded_by_log_witness :
    handleSignals [1, 2, 2]
        = .ok { shutdown := true, chClosed := true,
                trace := [Effect.log gotSignalMsg, Effect.close, Effect.log gotSignalMsg] } ∧
      (∃ s, handleSignals [1, 2, 2] = .ok s ∧
        ∀ pre post, s.trace = pre ++ Effect.close :: post →
          ∃ pre1, pre = pre1 ++ [Effect.log gotSignalMsg]) :=
  ⟨by decide, (close_preceded_by_log [1, 2, 2]).1⟩

/-- C10: for every finite sequence of signals, `handleSignals` writes the line
`"[INFO] got signal, shutting down..."` once per `os.Interrupt` in the sequence
(the log call is outside the `shutdown` guard), and the flag `shutdown` is
monotone: an iteration never resets it, so it stays true over any further
signals. -/
theorem log_count_and_monotone (sigs : List Signal) :
    (∃ s, handleSignals sigs = .ok s ∧ logCount s.trace = sigs.count osInterrupt) ∧
    (∀ s sig s1, s.shutdown = true → handleSignal s sig = .ok s1 → s1.shutdown = true) ∧
    (∀ more, shutdownAfter sigs = true → shutdownAfter (sigs ++ more) = true) := by
  refine ⟨⟨finalState (sigs.count osInterrupt), handleSignals_eq sigs,
    logCount_finalState _⟩, ?_, ?_⟩
  · intro s sig s1 hsh h
    by_cases hs : sig = osInterrupt
    · subst hs
      rw [handleSignal_interrupt_shutdown s hsh] at h
      injection h with h
      rw [← h]; exact hsh
    · rw [handleSignal_other s sig hs] at h
      injection h with h
      rw [← h]; exact hsh
  · intro more h
    rw [shutdownAfter_eq] at h ⊢
    simp only [decide_eq_true_eq, List.count_append] at h ⊢
    omega

/-- Witness of C10 on the signals interrupt, SIGTERM, interrupt, followed by
SIGHUP and a third interrupt. -/
theorem log_count_and_monotone_witness :
    shutdownAfter [2, 15, 2] = true ∧ shutdownAfter ([2, 15, 2] ++ [1, 2]) = true ∧
      (∃ s, handleSignals [2, 15, 2] = .ok s ∧
        logCount s.trace = List.count osInterrupt [2, 15, 2]) :=
  ⟨by decide,
   (log_count_and_monotone [2, 15, 2]).2.2 [1, 2] (by decide),
   (log_count_and_monotone [2, 15, 2]).1⟩

/-! ## Lemmas on `main` and on the gated writer -/

theorem main_merge_error {Agent : Type} (env : Env Agent) (args files : List String)
    (err : String) (hparse : flagParse args = .ok files)
    (hmerge : env.MergeConfigPaths env.DefaultConfig files = .error err) :
    main env args = ([Event.mergeConfigPaths files, fmtPrintln err], .exit 1) := by
  simp [main, hparse, hmerge]

theorem main_success_trace {Agent : Type} (env : Env Agent) (args files : List String)
    (config : Config) (a : Agent)
    (hparse : flagParse args = .ok files)
    (hmerge : env.MergeConfigPaths env.DefaultConfig files = .ok config)
    (hlog : env.loggerSetup (logConfigOf config) = true)
    (hagent : env.NewAgent config = .ok a) :
    (main env args).1
      = setupEvents files config ++ banner env config ++ [Event.flush, Event.agentRun] := by
  simp only [logConfigOf] at hlog
  cases hrun : env.Run a <;>
    simp [main, hparse, hmerge, hlog, hagent, hrun, setupEvents, logConfigOf]

/-- Once the gate is open, and as long as nothing is printed directly, the
terminal shows the log lines as they are written. -/
theorem terminalFrom_flushed (tr : List Event)
    (h : stdoutTexts (tr.filter fun e => !e.isLogWrite) = []) :
    terminalFrom true [] tr = logLines tr := by
  induction tr with
  | nil => rfl
  | cons e rest ih =>
    cases e <;>
      simp_all [terminalFrom, logLines, stdoutTexts, Event.isLogWrite, List.filter_cons]

/-- With the gate closed, the terminal shows what is printed directly before the
flush, then the buffer, then the log lines, whenever they were written. -/
theorem terminalFrom_gated (tr : List Event) :
    ∀ (buf : List String) (m m1 : List Event),
      (tr.filter fun e => !e.isLogWrite) = m ++ Event.flush :: m1 →
      Event.flush ∉ m → stdoutTexts m1 = [] →
      terminalFrom false buf tr = stdoutTexts m ++ buf ++ logLines tr := by
  induction tr with
  | nil => intro buf m m1 h; simp at h
  | cons e rest ih =>
    intro buf m m1 h hm hm1
    by_cases hlog : e.isLogWrite = true
    · cases e <;> simp [Event.isLogWrite] at hlog
      rename_i line
      simp only [List.filter_cons, Event.isLogWrite, Bool.not_true, Bool.false_eq_true,
        if_false] at h
      simp only [terminalFrom, Bool.false_eq_true, if_false, logLines]
      rw [ih (buf ++ [line]) m m1 h hm hm1]
      simp
    · have hlog2 : e.isLogWrite = false := by simpa using hlog
      simp only [List.filter_cons, hlog2, Bool.not_false, if_true] at h
      match m, h, hm with
      | [], h, _ =>
        simp only [List.nil_append, List.cons.injEq] at h
        obtain ⟨he, hrest⟩ := h
        subst he
        have hfl := terminalFrom_flushed rest (by rw [hrest]; exact hm1)
        simp [terminalFrom, hfl, logLines, stdoutTexts]
      | e1 :: m2, h, hm =>
        simp only [List.cons_append, List.cons.injEq] at h
        obtain ⟨he, hrest⟩ := h
        subst he
        have hm2 : Event.flush ∉ m2 := fun hx => hm (List.mem_cons_of_mem _ hx)
        have hne : e ≠ Event.flush := fun hx => hm (by rw [hx]; simp)
        have := ih buf m2 m1 hrest hm2 hm1
        cases e <;> simp_all [terminalFrom, logLines, stdoutTexts, Event.isLogWrite]

theorem stdoutTexts_append (xs ys : List Event) :
    stdoutTexts (xs ++ ys) = stdoutTexts xs ++ stdoutTexts ys := by
  induction xs with
  | nil => rfl
  | cons e rest ih => cases e <;> simp [stdoutTexts, ih]

/-! ## The claims on `main` -/

/-- C5: on every start-up of `main` where the flag parse, the config merge, the
log setup and `NewAgent` all succeed, the main goroutine writes the banner
(`Consul ESM running!`, Datacenter, Service, Leader Key, Node Reconnect Timeout,
in that order) to standard output, then calls `gatedWriter.Flush()`, then
`a.Run(shutdownCh)`.  So, whatever is written to the log output and whenever
(by the agent or by `handleSignals`), the terminal shows the banner first and
the log lines after it. -/
theorem banner_before_flush_before_run {Agent : Type} (env : Env Agent)
    (args files : List String) (config : Config) (a : Agent)
    (hparse : flagParse args = .ok files)
    (hmerge : env.MergeConfigPaths env.DefaultConfig files = .ok config)
    (hlog : env.loggerSetup (logConfigOf config) = true)
    (hagent : env.NewAgent config = .ok a) :
    (main env args).1
        = setupEvents files config ++ banner env config ++ [Event.flush, Event.agentRun] ∧
      stdoutTexts (setupEvents files config) = [] ∧
      stdoutTexts (banner env config)
        = [ "Consul ESM running!\n",
            datacenterLine env.isPrint config ++ "\n",
            "               Service: " ++ goQuote env.isPrint config.Service ++ "\n",
            "            Leader Key: " ++ goQuote env.isPrint config.LeaderKey ++ "\n",
            "Node Reconnect Timeout: " ++
              goQuote env.isPrint (env.durationString config.NodeReconnectTimeout) ++ "\n",
            "\n",
            "Log data will now stream in as it occurs:\n\n" ] ∧
      ∀ tr : List Event, (tr.filter fun e => !e.isLogWrite) = (main env args).1 →
        terminal tr = stdoutTexts (banner env config) ++ logLines tr := by
  have htrace := main_success_trace env args files config a hparse hmerge hlog hagent
  refine ⟨htrace, rfl, rfl, ?_⟩
  intro tr htr
  rw [htrace, List.append_assoc] at htr
  have hno : Event.flush ∉ setupEvents files config ++ banner env config := by
    simp [setupEvents, banner, uiOutput]
  have := terminalFrom_gated tr [] _ [Event.agentRun] htr hno rfl
  rw [terminal, this, stdoutTexts_append]
  simp [setupEvents, stdoutTexts]

/-- Witness of C5: `consul-esm -config-file a.hcl` with collaborators that
succeed, and a log line written by `handleSignals` before the banner is
printed. -/
theorem banner_before_flush_before_run_witness :
    flagParse ["-config-file", "a.hcl"] = .ok ["a.hcl"] ∧
      (main okEnv ["-config-file", "a.hcl"]).1
        = setupEvents ["a.hcl"] okEnv.DefaultConfig ++ banner okEnv okEnv.DefaultConfig
            ++ [Event.flush, Event.agentRun] ∧
      terminal (setupEvents ["a.hcl"] okEnv.DefaultConfig ++ Event.logWrite gotSignalMsg
          :: (banner okEnv okEnv.DefaultConfig ++ [Event.flush, Event.agentRun]))
        = stdoutTexts (banner okEnv okEnv.DefaultConfig) ++ [gotSignalMsg] :=
  have h := banner_before_flush_before_run okEnv ["-config-file", "a.hcl"] ["a.hcl"]
    okEnv.DefaultConfig () (by decide) rfl rfl rfl
  ⟨by decide, h.1, by
    rw [h.2.2.2 _ (by rw [h.1]; rfl)]
    rfl⟩

/-- C6: whenever `MergeConfigPaths` returns an error on the list of config
paths, `main` exits with status 1 right after printing the error: `NewAgent` and
`Agent.Run` are never called, logging is not set up and the signal handler is
not started. -/
theorem merge_error_starts_nothing {Agent : Type} (env : Env Agent)
    (args files : List String) (err : String)
    (hparse : flagParse args = .ok files)
    (hmerge : env.MergeConfigPaths env.DefaultConfig files = .error err) :
    (main env args).2 = .exit 1 ∧
      (main env args).1 = [Event.mergeConfigPaths files, fmtPrintln err] ∧
      (∀ e ∈ (main env args).1,
        (∀ c, e ≠ Event.newAgent c) ∧ e ≠ Event.agentRun ∧ (∀ l, e ≠ Event.loggerSetup l) ∧
        e ≠ Event.signalNotify ∧ e ≠ Event.goHandleSignals ∧ e ≠ Event.flush) := by
  rw [main_merge_error env args files err hparse hmerge]
  refine ⟨rfl, rfl, ?_⟩
  intro e he
  simp only [List.mem_cons, List.mem_singleton, List.not_mem_nil, or_false] at he
  rcases he with he | he <;> subst he <;> simp [fmtPrintln]

/-- Witness of C6: `consul-esm -config-dir /nonexistent` with a merge that
fails. -/
theorem merge_error_starts_nothing_witness :
    flagParse ["-config-dir", "/nonexistent"] = .ok ["/nonexistent"] ∧
      (main badMergeEnv ["-config-dir", "/nonexistent"]).2 = .exit 1 ∧
      (main badMergeEnv ["-config-dir", "/nonexistent"]).1
        = [Event.mergeConfigPaths ["/nonexistent"],
           fmtPrintln "open /nonexistent: no such file"] :=
  have h := merge_error_starts_nothing badMergeEnv ["-config-dir", "/nonexistent"]
    ["/nonexistent"] "open /nonexistent: no such file" (by decide) rfl
  ⟨by decide, h.1, h.2.1⟩

/-- C7, counterexample: when `MergeConfigPaths` fails, `main` writes the error
to standard output (`fmt.Println`) and writes nothing to standard error. -/
theorem merge_error_printed_on_stdout :
    main badMergeEnv ["-config-dir", "/nonexistent"]
        = ([Event.mergeConfigPaths ["/nonexistent"],
            Event.stdout "open /nonexistent: no such file\n"], .exit 1) ∧
      stderrTexts (main badMergeEnv ["-config-dir", "/nonexistent"]).1 = [] ∧
      stdoutTexts (main badMergeEnv ["-config-dir", "/nonexistent"]).1
        = ["open /nonexistent: no such file\n"] := by
  refine ⟨by decide, by decide, by decide⟩

/-- C7, amended: when `MergeConfigPaths` fails, `main` prints the error and a
newline to standard output, prints nothing to standard error, and then exits
with status 1. -/
theorem merge_error_reported {Agent : Type} (env : Env Agent)
    (args files : List String) (err : String)
    (hparse : flagParse args = .ok files)
    (hmerge : env.MergeConfigPaths env.DefaultConfig files = .error err) :
    stdoutTexts (main env args).1 = [err ++ "\n"] ∧
      stderrTexts (main env args).1 = [] ∧
      (main env args).1.getLast? = some (Event.stdout (err ++ "\n")) ∧
      (main env args).2 = .exit 1 := by
  rw [main_merge_error env args files err hparse hmerge]
  exact ⟨rfl, rfl, rfl, rfl⟩

/-- Witness of C7 (amended): a merge that fails on an empty command line. -/
theorem merge_error_reported_witness :
    flagParse [] = .ok [] ∧
      stdoutTexts (main badMergeEnv []).1 = ["open /nonexistent: no such file" ++ "\n"] ∧
      stderrTexts (main badMergeEnv []).1 = [] ∧
      (main badMergeEnv []).2 = .exit 1 :=
  have h := merge_error_reported badMergeEnv [] [] "open /nonexistent: no such file"
    (by decide) rfl
  ⟨by decide, h.1, h.2.1, h.2.2.2⟩

/-! ## Lemmas on `%q` -/

theorem ite_appends {c : Prop} [Decidable c] {buf a b : List Char}
    (ha : ∃ out, out ≠ [] ∧ a = buf ++ out) (hb : ∃ out, out ≠ [] ∧ b = buf ++ out) :
    ∃ out, out ≠ [] ∧ (if c then a else b) = buf ++ out := by
  by_cases h : c
  · rw [if_pos h]; exact ha
  · rw [if_neg h]; exact hb

/-- An escaped rune is at least one character, appended to the buffer. -/
theorem appendEscapedRune_append (isPrint : Char → Bool) (buf : List Char) (r : Char) :
    ∃ out, out ≠ [] ∧ appendEscapedRune isPrint buf r = buf ++ out := by
  unfold appendEscapedRune
  repeat' first
    | exact ⟨_, List.cons_ne_nil _ _, rfl⟩
    | apply ite_appends

theorem foldl_appendEscapedRune (isPrint : Char → Bool) (cs : List Char) :
    ∀ buf, ∃ out, (cs ≠ [] → out ≠ []) ∧
      cs.foldl (appendEscapedRune isPrint) buf = buf ++ out := by
  induction cs with
  | nil => intro buf; exact ⟨[], by simp, by simp⟩
  | cons c rest ih =>
    intro buf
    obtain ⟨o1, ho1, h1⟩ := appendEscapedRune_append isPrint buf c
    obtain ⟨o2, _, h2⟩ := ih (buf ++ o1)
    refine ⟨o1 ++ o2, fun _ => by simp [ho1], ?_⟩
    rw [List.foldl_cons, h1, h2, List.append_assoc]

/-- A quoted string is a quote, the escaped runes, a quote; the escaped runes
are not empty unless the string is. -/
theorem goQuote_shape (isPrint : Char → Bool) (s : String) :
    ∃ body, (s ≠ "" → body ≠ []) ∧ goQuote isPrint s = String.mk ('"' :: body ++ ['"']) := by
  obtain ⟨out, hout, h⟩ := foldl_appendEscapedRune isPrint s.data ['"']
  refine ⟨out, fun hs => hout ?_, ?_⟩
  · intro hd
    apply hs
    exact String.ext hd
  · simp [goQuote, h]

/-- C8: for every effective configuration, the Datacenter line of the banner is
the literal text `"            Datacenter: (default)"` if and only if
`config.Datacenter` is the empty string; for a non-empty datacenter it is the
label followed by the `%q`-quoted name, which is a pair of quotes around at
least one character, never an empty value. -/
theorem datacenter_line_default_iff_empty {Agent : Type} (env : Env Agent) (config : Config) :
    (banner env config)[1]? = some (uiOutput (datacenterLine env.isPrint config)) ∧
      (datacenterLine env.isPrint config = "            Datacenter: (default)"
        ↔ config.Datacenter = "") ∧
      (config.Datacenter ≠ "" →
        datacenterLine env.isPrint config
          = "            Datacenter: " ++ goQuote env.isPrint config.Datacenter ∧
        goQuote env.isPrint config.Datacenter ≠ "" ∧
        goQuote env.isPrint config.Datacenter ≠ "\"\"" ∧
        ∃ body, body ≠ [] ∧
          goQuote env.isPrint config.Datacenter = String.mk ('"' :: body ++ ['"'])) := by
  obtain ⟨body, hbody, hq⟩ := goQuote_shape env.isPrint config.Datacenter
  refine ⟨rfl, ⟨?_, ?_⟩, ?_⟩
  · intro h
    by_contra hne
    rw [datacenterLine, if_neg hne, hq] at h
    have hd := congrArg String.data h
    have hlit : ("            Datacenter: (default)" : String).data
        = ("            Datacenter: " : String).data ++ ("(default)" : String).data := by
      decide
    rw [String.data_append, hlit] at hd
    have := List.append_cancel_left hd
    simp at this
  · intro h
    rw [datacenterLine, if_pos h]
  · intro hne
    refine ⟨by rw [datacenterLine, if_neg hne], ?_, ?_, body, hbody hne, hq⟩
    · rw [hq]
      intro h
      have := congrArg String.data h
      simp at this
    · rw [hq]
      intro h
      have hd := congrArg String.data h
      have hlit : ("\"\"" : String).data = ['"', '"'] := by decide
      rw [hlit] at hd
      simp only [List.cons.injEq, true_and] at hd
      have hb := hbody hne
      cases body with
      | nil => exact hb rfl
      | cons b bs =>
        simp only [List.cons_append, List.cons.injEq] at hd
        have := hd.2
        simp at this

/-- Witness of C8: the datacenter `dc1` is printed quoted, the empty one as
`(default)`. -/
theorem datacenter_line_default_iff_empty_witness :
    datacenterLine okEnv.isPrint { okEnv.DefaultConfig with Datacenter := "dc1" }
        = "            Datacenter: \"dc1\"" ∧
      datacenterLine okEnv.isPrint okEnv.DefaultConfig = "            Datacenter: (default)" ∧
      goQuote okEnv.isPrint "dc1" ≠ "" :=
  have h := datacenter_line_default_iff_empty okEnv
    { okEnv.DefaultConfig with Datacenter := "dc1" }
  ⟨by decide, by decide, (h.2.2 (by decide)).2.1⟩

/-! ## Lemmas on the flag parser -/

/-- A call of `parseOne` that sees a flag consumes at least one argument. -/
theorem parseOne_seen_length (configFiles args configFiles1 args1 : List String)
    (h : parseOne configFiles args = .seen configFiles1 args1) :
    args1.length < args.length := by
  unfold parseOne at h
  split at h
  · cases h
  · rename_i s rest
    split at h
    · rename_i c cs _
      by_cases h1 : c = '-' ∧ cs = []
      · rw [if_pos h1] at h; cases h
      · rw [if_neg h1] at h
        simp only [] at h
        generalize (if c = '-' then cs else c :: cs) = name at h
        cases name with
        | nil => cases h
        | cons n0 ns =>
          simp only [] at h
          by_cases h2 : n0 = '-' ∨ n0 = '='
          · rw [if_pos h2] at h; cases h
          · rw [if_neg h2] at h
            by_cases h3 : String.mk (splitNameValue (n0 :: ns)).1 ∈ formalFlags
            · rw [if_pos h3] at h
              split at h
              · injection h with _ h; subst h; simp
              · injection h with _ h; subst h; simp only [List.length_cons]; omega
              · cases h
            · rw [if_neg h3] at h
              by_cases h4 : String.mk (splitNameValue (n0 :: ns)).1 = "help" ∨
                  String.mk (splitNameValue (n0 :: ns)).1 = "h"
              · rw [if_pos h4] at h; cases h
              · rw [if_neg h4] at h; cases h
    · cases h

/-- The fuel given by `flagParse` is never used up: more fuel changes nothing. -/
theorem parseLoop_fuel (fuel : Nat) :
    ∀ (configFiles args : List String), args.length < fuel →
      parseLoop (fuel + 1) configFiles args = parseLoop fuel configFiles args := by
  induction fuel with
  | zero => intro _ args h; simp at h
  | succ n ih =>
    intro configFiles args h
    conv_lhs => rw [parseLoop]
    conv_rhs => rw [parseLoop]
    cases hp : parseOne configFiles args with
    | seen configFiles1 args1 =>
      have := parseOne_seen_length _ _ _ _ hp
      simp only []
      exact ih configFiles1 args1 (by omega)
    | done => rfl
    | help => rfl
    | failed msg => rfl

theorem parseOne_render (configFiles : List String) (u : FlagUse) (rest : List String) :
    parseOne configFiles (u.render ++ rest) = .seen (configFiles ++ [u.value]) rest := by
  obtain ⟨dir, twoDashes, inline, value⟩ := u
  cases dir <;> cases twoDashes <;> cases inline <;>
    simp [FlagUse.render, FlagUse.flagName, parseOne, splitNameValue, findEq, formalFlags,
      appendSliceSet]

theorem length_render_pos (u : FlagUse) : 0 < u.render.length := by
  unfold FlagUse.render
  split_ifs <;> simp

theorem parseLoop_renderArgs (us : List FlagUse) :
    ∀ (fuel : Nat) (configFiles : List String), (renderArgs us).length < fuel →
      parseLoop fuel configFiles (renderArgs us)
        = .ok (configFiles ++ us.map FlagUse.value) := by
  induction us with
  | nil =>
    intro fuel configFiles h
    cases fuel with
    | zero => simp at h
    | succ n => simp [renderArgs, parseLoop, parseOne]
  | cons u rest ih =>
    intro fuel configFiles h
    cases fuel with
    | zero => simp at h
    | succ n =>
      have hpos := length_render_pos u
      simp only [renderArgs, List.length_append] at h
      rw [renderArgs, parseLoop, parseOne_render]
      simp only []
      rw [ih n _ (by omega)]
      simp

theorem flagParse_renderArgs (us : List FlagUse) :
    flagParse (renderArgs us) = .ok (us.map FlagUse.value) := by
  rw [flagParse, parseLoop_renderArgs us _ [] (Nat.lt_succ_self _)]
  simp

/-- After a successful flag parse, `main` first calls `MergeConfigPaths` on the
parsed list, and never calls it again. -/
theorem main_after_parse {Agent : Type} (env : Env Agent) (args files : List String)
    (hparse : flagParse args = .ok files) :
    ∃ rest, (main env args).1 = Event.mergeConfigPaths files :: rest ∧
      ∀ paths, Event.mergeConfigPaths paths ∉ rest := by
  cases hm : env.MergeConfigPaths env.DefaultConfig files with
  | error err =>
    exact ⟨[fmtPrintln err], by simp [main, hparse, hm], by simp [fmtPrintln]⟩
  | ok config =>
    cases hl : env.loggerSetup (logConfigOf config) with
    | false =>
      simp only [logConfigOf] at hl
      exact ⟨[Event.loggerSetup (logConfigOf config)],
        by simp [main, hparse, hm, hl, logConfigOf], by simp⟩
    | true =>
      cases hn : env.NewAgent config with
      | error err =>
        simp only [logConfigOf] at hl
        exact ⟨[Event.loggerSetup (logConfigOf config), Event.newAgent config],
          by simp [main, hparse, hm, hl, hn, logConfigOf], by simp⟩
      | ok a =>
        have h := main_success_trace env args files config a hparse hm hl hn
        exact ⟨_, by rw [h]; rfl, by simp [banner, uiOutput]⟩

/-- C9: for every command line made of any interleaving of `-config-file` and
`-config-dir` flags (with one or two dashes, the value as the next argument or
after `=`), the flag parse succeeds and the list passed to `MergeConfigPaths`
is the sequence of the flags' values in the order given: both flags append to
the same list. -/
theorem config_paths_in_command_line_order {Agent : Type} (env : Env Agent)
    (us : List FlagUse) :
    flagParse (renderArgs us) = .ok (us.map FlagUse.value) ∧
      (main env (renderArgs us)).1.head?
        = some (Event.mergeConfigPaths (us.map FlagUse.value)) ∧
      (∀ e ∈ (main env (renderArgs us)).1, ∀ paths,
        e = Event.mergeConfigPaths paths → paths = us.map FlagUse.value) := by
  have hparse := flagParse_renderArgs us
  obtain ⟨rest, hrest, hno⟩ := main_after_parse env _ _ hparse
  refine ⟨hparse, by rw [hrest]; rfl, ?_⟩
  intro e he paths hep
  subst hep
  rw [hrest, List.mem_cons] at he
  rcases he with he | he
  · injection he
  · exact absurd he (hno paths)

/-- Witness of C9: `-config-file a.hcl --config-dir=/etc/esm -config-file b.hcl`. -/
theorem config_paths_in_command_line_order_witness :
    renderArgs [⟨false, false, false, "a.hcl"⟩, ⟨true, true, true, "/etc/esm"⟩,
        ⟨false, false, false, "b.hcl"⟩]
      = ["-config-file", "a.hcl", "--config-dir=/etc/esm", "-config-file", "b.hcl"] ∧
    flagParse ["-config-file", "a.hcl", "--config-dir=/etc/esm", "-config-file", "b.hcl"]
      = .ok ["a.hcl", "/etc/esm", "b.hcl"] :=
  ⟨by decide,
   (config_paths_in_command_line_order okEnv [⟨false, false, false, "a.hcl"⟩,
      ⟨true, true, true, "/etc/esm"⟩, ⟨false, false, false, "b.hcl"⟩]).1⟩

end ConsulESM
